import Mathlib

/-!
Verification development for the TUN inbound of the `jets` proxy
(`src/proxy/tun/mod.rs`).

The file shallowly embeds the reactor code of `TunHandler::run` and
`TunHandler::handle_tun_frame`, together with the construction path
`TunInbound::new` / `TunInbound::run`, as pure Lean functions that
return explicit effect traces.  Outcomes of external or sibling-module
operations (the `ip_packet` parser, smoltcp's `TcpPacket::new_checked`
and `UdpPacket::new_checked`, and the `TcpTun`/`UdpTun` handler
results) are supplied as oracle values, so every theorem quantifies
over all possible outcomes of those calls.
-/

set_option autoImplicit false

namespace Jets.Tun

/-- IP addresses as in `std::net::IpAddr`: four octets for IPv4, eight
16-bit segments for IPv6. -/
inductive IpAddr where
  | v4 (a b c d : Nat)
  | v6 (s0 s1 s2 s3 s4 s5 s6 s7 : Nat)
  deriving DecidableEq, Repr

/-- `Ipv4Addr::is_broadcast`: the address is `255.255.255.255`.
Always false on an IPv6 address. -/
def IpAddr.isV4Broadcast : IpAddr → Bool
  | .v4 a b c d => a == 255 && b == 255 && c == 255 && d == 255
  | .v6 .. => false

/-- `Ipv4Addr::is_multicast` (first octet in `224..=239`) and
`Ipv6Addr::is_multicast` (first segment has the form `0xffxx`). -/
def IpAddr.isMulticastAddr : IpAddr → Bool
  | .v4 a _ _ _ => 224 ≤ a && a ≤ 239
  | .v6 s0 _ _ _ _ _ _ _ => s0 &&& 65280 == 65280

/-- `Ipv4Addr::is_unspecified` (`0.0.0.0`) and
`Ipv6Addr::is_unspecified` (`::`). -/
def IpAddr.isUnspecifiedAddr : IpAddr → Bool
  | .v4 a b c d => a == 0 && b == 0 && c == 0 && d == 0
  | .v6 s0 s1 s2 s3 s4 s5 s6 s7 =>
      s0 == 0 && s1 == 0 && s2 == 0 && s3 == 0 &&
      s4 == 0 && s5 == 0 && s6 == 0 && s7 == 0

/-- The non-unicast test of `handle_tun_frame` (lines 254-263 of
`mod.rs`): the address equals the device broadcast address, or is
IPv4 broadcast / multicast / unspecified, or IPv6 multicast /
unspecified. -/
def nonUnicast (deviceBroadcast ip : IpAddr) : Bool :=
  decide (ip = deviceBroadcast) ||
    match ip with
    | .v4 .. => ip.isV4Broadcast || ip.isMulticastAddr || ip.isUnspecifiedAddr
    | .v6 .. => ip.isMulticastAddr || ip.isUnspecifiedAddr

/-- `std::net::SocketAddr`: an IP address paired with a port. -/
abbrev SocketAddr := IpAddr × Nat

/-- The upper-layer protocol of an IP packet (`smoltcp::wire::IpProtocol`),
with every protocol other than TCP/UDP/ICMP/ICMPv6 kept as its number. -/
inductive IpProtocol where
  | tcp
  | udp
  | icmp
  | icmpv6
  | other (n : Nat)
  deriving DecidableEq, Repr

/-- A parsed TCP header view (`smoltcp::wire::TcpPacket`), keeping the
fields `handle_tun_frame` reads plus the raw segment bytes. -/
structure TcpSeg where
  srcPort : Nat
  dstPort : Nat
  bytes : List Nat
  deriving DecidableEq, Repr

/-- A parsed UDP header view (`smoltcp::wire::UdpPacket`). -/
structure UdpDatagram where
  srcPort : Nat
  dstPort : Nat
  payload : List Nat
  deriving DecidableEq, Repr

/-- The typed view `IpPacket` exposes over a validated IPv4/IPv6
frame: source address, destination address, protocol and payload. -/
structure ParsedIp where
  src : IpAddr
  dst : IpAddr
  protocol : IpProtocol
  payload : List Nat
  deriving DecidableEq, Repr

/-- Wire-level parse errors (`smoltcp::wire::Error`), kept abstract as
their message. -/
abbrev WireError := String

/-- Outcomes of the calls `handle_tun_frame` makes into code outside
this module: the `IpPacket::new_checked` result, the smoltcp header
parses of the IP payload, and the `TcpTun`/`UdpTun` handler results.
For one concrete frame each of these is a fixed value; quantifying
over the oracle quantifies over every possible outcome. -/
structure FrameOracle where
  ipParse : Except WireError (Option ParsedIp)
  tcpParse : Except WireError TcpSeg
  udpParse : Except WireError UdpDatagram
  tcpHandleRes : Except String Unit
  udpHandleRes : Except String Unit

/-- Observable events of one `handle_tun_frame` invocation, in order:
log statements and the calls made into `TcpTun` / `UdpTun`. -/
inductive TunEvent where
  | warnUnrecognized (len : Nat)
  | traceNonUnicastDrop (src dst : IpAddr)
  | errTcpParse (e : WireError)
  | callTcpHandlePacket (src dst : SocketAddr) (seg : TcpSeg)
  | errTcpHandle (e : String)
  | callTcpDriveInterfaceState (frame : List Nat)
  | errUdpParse (e : WireError)
  | callUdpHandlePacket (src dst : SocketAddr) (payload : List Nat)
  | errUdpHandle (e : String)
  | debugIgnored (p : IpProtocol)
  deriving DecidableEq, Repr

/-- True exactly on the events that are calls into `TcpTun` or
`UdpTun` (device writes and per-flow state changes can only happen
inside those calls). -/
def TunEvent.isCall : TunEvent → Bool
  | .callTcpHandlePacket .. => true
  | .callTcpDriveInterfaceState .. => true
  | .callUdpHandlePacket .. => true
  | _ => false

/-- Shallow embedding of `TunHandler::handle_tun_frame` (mod.rs lines
239-375).  Returns the ordered event trace together with the
propagated wire error, if any: the `?` on `IpPacket::new_checked` is
the only error exit, every other failure is logged and swallowed. -/
def handle_tun_frame (deviceBroadcastAddr : IpAddr) (frame : List Nat)
    (o : FrameOracle) : List TunEvent × Option WireError :=
  match o.ipParse with
  | .error e => ([], some e)
  | .ok none => ([.warnUnrecognized frame.length], none)
  | .ok (some packet) =>
    let srcNonUnicast := nonUnicast deviceBroadcastAddr packet.src
    let dstNonUnicast := nonUnicast deviceBroadcastAddr packet.dst
    if srcNonUnicast || dstNonUnicast then
      ([.traceNonUnicastDrop packet.src packet.dst], none)
    else
      match packet.protocol with
      | .tcp =>
        match o.tcpParse with
        | .error e => ([.errTcpParse e], none)
        | .ok seg =>
          let srcAddr : SocketAddr := (packet.src, seg.srcPort)
          let dstAddr : SocketAddr := (packet.dst, seg.dstPort)
          let handleLog := match o.tcpHandleRes with
            | .error e => [TunEvent.errTcpHandle e]
            | .ok _ => []
          (TunEvent.callTcpHandlePacket srcAddr dstAddr seg :: handleLog ++
            [TunEvent.callTcpDriveInterfaceState frame], none)
      | .udp =>
        match o.udpParse with
        | .error e => ([.errUdpParse e], none)
        | .ok dg =>
          let srcAddr : SocketAddr := (packet.src, dg.srcPort)
          let dstAddr : SocketAddr := (packet.dst, dg.dstPort)
          let handleLog := match o.udpHandleRes with
            | .error e => [TunEvent.errUdpHandle e]
            | .ok _ => []
          (TunEvent.callUdpHandlePacket srcAddr dstAddr dg.payload :: handleLog,
            none)
      | .icmp => ([.callTcpDriveInterfaceState frame], none)
      | .icmpv6 => ([.callTcpDriveInterfaceState frame], none)
      | .other n => ([.debugIgnored (.other n)], none)

/-- I/O errors (`std::io::Error`), kept abstract as their message. -/
abbrev IoError := String

/-- The five event sources of the `tokio::select!` in
`TunHandler::run` (mod.rs lines 176-235), each paired with the
outcome of the await that produced it. -/
inductive ReactorEvent where
  | deviceRead (res : Except IoError Nat)
  | tcpEgress (packet : List Nat) (writeRes : Except IoError Nat)
  | udpEgress (packet : List Nat) (writeRes : Except IoError Nat)
  | cleanupTick
  | keepAlive (peer : Option SocketAddr)
  deriving Repr

/-- Observable events of one reactor-loop iteration. -/
inductive LoopEvent where
  | frameEvent (ev : TunEvent)
  | logFrameError (e : WireError)
  | deviceWrite (packet : List Nat) (written : Nat)
  | warnTruncatedWrite (written total : Nat)
  | logWriteError (e : IoError)
  | udpCleanupExpired
  | udpKeepAlive (peer : SocketAddr)
  deriving DecidableEq, Repr

/-- Outcome of one reactor-loop iteration: continue to the next
iteration with the listed events, return a fatal error from `run`, or
abort the process (the `expect` on the keep-alive channel). -/
inductive StepOutcome where
  | next (events : List LoopEvent)
  | fatal (e : IoError)
  | panicked (msg : String)
  deriving DecidableEq, Repr

/-- True exactly on the fatal-return outcome. -/
def StepOutcome.isFatal : StepOutcome → Bool
  | .fatal _ => true
  | _ => false

/-- True exactly when the event is a failed device read. -/
def ReactorEvent.isDeviceReadFailure : ReactorEvent → Bool
  | .deviceRead (.error _) => true
  | _ => false

/-- Shallow embedding of one iteration of the `loop { tokio::select! }`
body of `TunHandler::run` (mod.rs lines 175-236).  `frame` and `o`
describe the frame obtained on a successful device read and the
oracle for its handling. -/
def reactorStep (deviceBroadcastAddr : IpAddr) (frame : List Nat)
    (o : FrameOracle) : ReactorEvent → StepOutcome
  | .deviceRead (.error e) => .fatal e
  | .deviceRead (.ok _) =>
    let r := handle_tun_frame deviceBroadcastAddr frame o
    .next (r.1.map LoopEvent.frameEvent ++
      (match r.2 with
       | some e => [LoopEvent.logFrameError e]
       | none => []))
  | .tcpEgress _ (.error e) => .next [.logWriteError e]
  | .tcpEgress pkt (.ok n) =>
    .next (LoopEvent.deviceWrite pkt n ::
      (if n < pkt.length then [LoopEvent.warnTruncatedWrite n pkt.length] else []))
  | .udpEgress _ (.error e) => .next [.logWriteError e]
  | .udpEgress pkt (.ok n) =>
    .next (LoopEvent.deviceWrite pkt n ::
      (if n < pkt.length then [LoopEvent.warnTruncatedWrite n pkt.length] else []))
  | .cleanupTick => .next [.udpCleanupExpired]
  | .keepAlive none => .panicked "UDP keep-alive channel closed unexpectly"
  | .keepAlive (some p) => .next [.udpKeepAlive p]

/-- True exactly on device-write events. -/
def LoopEvent.isDeviceWrite : LoopEvent → Bool
  | .deviceWrite .. => true
  | _ => false

/-- Modelled from the spec: `MAXIMUM_UDP_PAYLOAD_SIZE` lives in
`crate::common`, which is not under `src/`; the spec fixes the packet
buffer capacity at the maximum UDP payload size, 64 KiB. -/
def MAXIMUM_UDP_PAYLOAD_SIZE : Nat := 65536

/-- Modelled from the spec: `TokenBuffer` (module `virt_device`, not
under `src/`) is a fixed-capacity byte region with a declared length
distinct from the capacity; `as_ref` exposes the first `len` bytes of
the backing storage. -/
structure TokenBuffer where
  cap : Nat
  storage : List Nat
  len : Nat
  deriving DecidableEq, Repr

/-- Modelled from the spec: `with_capacity(n)` yields a buffer of
capacity `n` and length 0. -/
def TokenBuffer.with_capacity (n : Nat) : TokenBuffer :=
  ⟨n, List.replicate n 0, 0⟩

/-- Modelled from the spec: `set_len(n)` declares that bytes `[0, n)`
are valid; the caller is responsible for the truth of this. -/
def TokenBuffer.set_len (b : TokenBuffer) (n : Nat) : TokenBuffer :=
  { b with len := n }

/-- Modelled from the spec: `as_ref()` exposes the valid bytes. -/
def TokenBuffer.as_ref (b : TokenBuffer) : List Nat :=
  b.storage.take b.len

/-- The packet-buffer well-formedness invariant: the declared length
never exceeds the capacity, and the backing storage fills the
capacity. -/
def TokenBuffer.wf (b : TokenBuffer) : Prop :=
  b.len ≤ b.cap ∧ b.storage.length = b.cap

/-- The `create_packet_buffer` closure of `TunHandler::run` (mod.rs
lines 164-170): a fresh buffer of capacity
`MAXIMUM_UDP_PAYLOAD_SIZE` whose length is set to the full capacity
so the device read sees the whole region. -/
def create_packet_buffer : TokenBuffer :=
  (TokenBuffer.with_capacity MAXIMUM_UDP_PAYLOAD_SIZE).set_len
    MAXIMUM_UDP_PAYLOAD_SIZE

/-- A device read that received the bytes `bs`: the read fills the
front of the buffer's storage and leaves the rest untouched. -/
def deviceReadInto (b : TokenBuffer) (bs : List Nat) : TokenBuffer :=
  { b with storage := bs ++ b.storage.drop bs.length }

/-- The buffer handed to classification in the device-read branch of
`TunHandler::run` (mod.rs lines 178-184): the just-filled buffer with
`set_len` applied unconditionally to the received byte count. -/
def bufferAfterRead (bs : List Nat) : TokenBuffer :=
  (deviceReadInto create_packet_buffer bs).set_len bs.length

/-- A parsed CIDR network (`ipnet::IpNet`): host address and mask
bits, the fields `TunInbound::new` reads. -/
structure IpNetAddr where
  host : IpAddr
  maskBits : Nat
  deriving DecidableEq, Repr

/-- The data `TunInbound::new` stores on success (the fields relevant
to the verified claims). -/
structure TunInboundModel where
  address : IpNetAddr
  destination : IpAddr
  deriving DecidableEq, Repr

/-- Result of `TunInbound::new`: either a constructed inbound or the
`invalid_input_error` with its message. -/
inductive NewResult where
  | ok (inbound : TunInboundModel)
  | invalidInput (msg : String)
  deriving DecidableEq, Repr

/-- Shallow embedding of `TunInbound::new` (mod.rs lines 59-104).
`parsedAddress` and `parsedDestination` are the outcomes of the
external `str::parse` calls into the `ipnet` crate and `std::net`
(`None` models a parse failure). -/
def TunInbound_new (address destination : String)
    (parsedAddress : Option IpNetAddr) (parsedDestination : Option IpAddr) :
    NewResult :=
  match parsedAddress with
  | none => .invalidInput ("invalid tun address of " ++ address)
  | some a =>
    match parsedDestination with
    | none => .invalidInput ("invalid tun destination of " ++ destination)
    | some d => .ok ⟨a, d⟩

/-- The device handle as `TunInbound::run` observes it: the MTU the
device reports, if any (`device.mtu()` succeeding). -/
structure DeviceModel where
  mtu : Option Nat
  deriving DecidableEq, Repr

/-- Outcome of `create_as_async(&self.tun_config)`: a device, an
`TunError::Io` failure, or any other `tun` crate error. -/
inductive TunCreateResult where
  | ok (dev : DeviceModel)
  | ioFailure (e : IoError)
  | otherFailure (e : String)
  deriving DecidableEq, Repr

/-- The error `TunInbound::run` returns before the reactor starts:
the inner I/O error as-is, or any other device error wrapped by
`Error::other`. -/
inductive RunError where
  | io (e : IoError)
  | wrappedOther (e : String)
  deriving DecidableEq, Repr

/-- Observable effects of `TunInbound::run` between device creation
and the reactor loop, in program order. -/
inductive RunEffect where
  | sendReady (s : String)
  | constructTcp (mtu : Nat)
  | constructUdp
  | enterReactorLoop
  deriving DecidableEq, Repr

/-- Shallow embedding of `TunInbound::run` up to the handler loop
(mod.rs lines 113-148): map device-creation failures to the returned
error; on success, optionally send "tun" on the ready channel, build
`TcpTun` with the device MTU defaulted to 1500, build `UdpTun`, and
enter the reactor loop. -/
def TunInbound_run (create : TunCreateResult) (channel : Option Unit) :
    Except RunError (List RunEffect) :=
  match create with
  | .ioFailure e => .error (.io e)
  | .otherFailure e => .error (.wrappedOther e)
  | .ok dev =>
    .ok ((match channel with
          | some _ => [RunEffect.sendReady "tun"]
          | none => []) ++
         [RunEffect.constructTcp (dev.mtu.getD 1500),
          RunEffect.constructUdp,
          RunEffect.enterReactorLoop])

/-- True exactly on the ready-channel send of the string "tun". -/
def RunEffect.isSendReady : RunEffect → Bool
  | .sendReady _ => true
  | _ => false

/-- True exactly on the `TcpTun::new` construction effect. -/
def RunEffect.isConstructTcp : RunEffect → Bool
  | .constructTcp _ => true
  | _ => false

/-- An address that equals the device broadcast address, or is IPv4
broadcast, or multicast, or unspecified, passes the code's
non-unicast test. -/
theorem nonUnicast_of_addr_class (bc ip : IpAddr)
    (h : ip = bc ∨ ip.isV4Broadcast = true ∨ ip.isMulticastAddr = true ∨
      ip.isUnspecifiedAddr = true) :
    nonUnicast bc ip = true := by
  rcases h with h | h | h | h
  · subst h; simp [nonUnicast]
  · cases ip with
    | v4 a b c d => simp [nonUnicast, h]
    | v6 s0 s1 s2 s3 s4 s5 s6 s7 => simp [IpAddr.isV4Broadcast] at h
  · cases ip <;> simp [nonUnicast, h]
  · cases ip <;> simp [nonUnicast, h]

/-- C1: a frame whose source or destination address equals the device
broadcast address, or is IPv4 broadcast, multicast, or unspecified,
makes `handle_tun_frame` return with only the drop-trace log: no call
into `TcpTun::handle_packet`, `TcpTun::drive_interface_state` or
`UdpTun::handle_packet` happens, so no device write and no per-flow
state change can occur. -/
theorem c1_non_unicast_frames_dropped (bc : IpAddr) (frame : List Nat)
    (o : FrameOracle) (packet : ParsedIp)
    (hp : o.ipParse = .ok (some packet))
    (hnu : (packet.src = bc ∨ packet.src.isV4Broadcast = true ∨
            packet.src.isMulticastAddr = true ∨
            packet.src.isUnspecifiedAddr = true) ∨
           (packet.dst = bc ∨ packet.dst.isV4Broadcast = true ∨
            packet.dst.isMulticastAddr = true ∨
            packet.dst.isUnspecifiedAddr = true)) :
    handle_tun_frame bc frame o =
      ([TunEvent.traceNonUnicastDrop packet.src packet.dst], none) ∧
    (handle_tun_frame bc frame o).1.filter TunEvent.isCall = [] := by
  have hcond : (nonUnicast bc packet.src || nonUnicast bc packet.dst) = true := by
    rcases hnu with h | h
    · simp [nonUnicast_of_addr_class bc packet.src h]
    · simp [nonUnicast_of_addr_class bc packet.dst h]
  constructor
  · simp [handle_tun_frame, hp, hcond]
  · simp [handle_tun_frame, hp, hcond, TunEvent.isCall]

def c1w_packet : ParsedIp :=
  ⟨.v4 10 0 0 50, .v4 10 0 0 255, .udp, [0, 1]⟩

def c1w_oracle : FrameOracle :=
  ⟨.ok (some c1w_packet), .error "e", .error "e", .ok (), .ok ()⟩

/-- C1 witness: a UDP frame from 10.0.0.50 to the device broadcast
address 10.0.0.255 is dropped with no calls. -/
theorem c1_non_unicast_frames_dropped_witness :
    handle_tun_frame (.v4 10 0 0 255) [69] c1w_oracle =
      ([TunEvent.traceNonUnicastDrop c1w_packet.src c1w_packet.dst], none) ∧
    (handle_tun_frame (.v4 10 0 0 255) [69] c1w_oracle).1.filter
      TunEvent.isCall = [] :=
  c1_non_unicast_frames_dropped (.v4 10 0 0 255) [69] c1w_oracle c1w_packet rfl
    (Or.inr (Or.inl rfl))

/-- C2: when `IpPacket::new_checked` fails or yields no packet (the
version nibble is neither 4 nor 6), `handle_tun_frame` makes no call
into `TcpTun` or `UdpTun`; in the run loop the failure is logged
(`logFrameError` on a wire error, the unrecognized-packet warning
otherwise) and the reactor continues (`next`) with no device write. -/
theorem c2_parse_failure_no_calls (bc : IpAddr) (frame : List Nat)
    (o : FrameOracle) (n : Nat)
    (h : (∃ e, o.ipParse = .error e) ∨ o.ipParse = .ok none) :
    (handle_tun_frame bc frame o).1.filter TunEvent.isCall = [] ∧
    ((∃ e, o.ipParse = .error e ∧
        handle_tun_frame bc frame o = ([], some e) ∧
        reactorStep bc frame o (.deviceRead (.ok n)) =
          .next [.logFrameError e]) ∨
     (o.ipParse = .ok none ∧
        handle_tun_frame bc frame o = ([.warnUnrecognized frame.length], none) ∧
        reactorStep bc frame o (.deviceRead (.ok n)) =
          .next [.frameEvent (.warnUnrecognized frame.length)])) := by
  rcases h with ⟨e, he⟩ | he
  · refine ⟨?_, Or.inl ⟨e, he, ?_, ?_⟩⟩ <;>
      simp [handle_tun_frame, reactorStep, he]
  · refine ⟨?_, Or.inr ⟨he, ?_, ?_⟩⟩ <;>
      simp [handle_tun_frame, reactorStep, he, TunEvent.isCall]

def c2w_oracle : FrameOracle :=
  ⟨.error "malformed", .error "e", .error "e", .ok (), .ok ()⟩

/-- C2 witness: a frame whose IP parse fails with "malformed" yields
no TcpTun/UdpTun call. -/
theorem c2_parse_failure_no_calls_witness :
    (handle_tun_frame (.v4 10 0 0 255) [7] c2w_oracle).1.filter
      TunEvent.isCall = [] :=
  (c2_parse_failure_no_calls (.v4 10 0 0 255) [7] c2w_oracle 1
    (Or.inl ⟨"malformed", rfl⟩)).1

/-- C3: the packet buffer starts well formed at capacity
`MAXIMUM_UDP_PAYLOAD_SIZE`, and when the device read returns at most
the buffer's declared length, the unconditional `set_len` leaves the
length within capacity and `as_ref` exposes exactly the received
frame bytes. -/
theorem c3_buffer_invariant (bs : List Nat)
    (h : bs.length ≤ create_packet_buffer.len) :
    create_packet_buffer.wf ∧
    (bufferAfterRead bs).wf ∧
    (bufferAfterRead bs).len ≤ (bufferAfterRead bs).cap ∧
    (bufferAfterRead bs).as_ref = bs := by
  have hlen : create_packet_buffer.len = MAXIMUM_UDP_PAYLOAD_SIZE := rfl
  have hM : bs.length ≤ MAXIMUM_UDP_PAYLOAD_SIZE := hlen ▸ h
  have hstorage :
      (bs ++ (List.replicate MAXIMUM_UDP_PAYLOAD_SIZE (0 : Nat)).drop
        bs.length).length = MAXIMUM_UDP_PAYLOAD_SIZE := by
    simp [List.length_drop]
    omega
  refine ⟨⟨le_refl _, by simp [create_packet_buffer, TokenBuffer.set_len,
    TokenBuffer.with_capacity]⟩, ⟨?_, ?_⟩, ?_, ?_⟩
  · simpa [bufferAfterRead, deviceReadInto, TokenBuffer.set_len,
      create_packet_buffer, TokenBuffer.with_capacity] using hM
  · simpa [bufferAfterRead, deviceReadInto, TokenBuffer.set_len,
      create_packet_buffer, TokenBuffer.with_capacity] using hstorage
  · simpa [bufferAfterRead, deviceReadInto, TokenBuffer.set_len,
      create_packet_buffer, TokenBuffer.with_capacity] using hM
  · simp [bufferAfterRead, deviceReadInto, TokenBuffer.set_len,
      TokenBuffer.as_ref, create_packet_buffer, TokenBuffer.with_capacity]

/-- C3 witness: a three-byte read keeps the invariant and exposes the
three received bytes. -/
theorem c3_buffer_invariant_witness :
    ([1, 2, 3] : List Nat).length ≤ create_packet_buffer.len ∧
    (create_packet_buffer.wf ∧
     (bufferAfterRead [1, 2, 3]).wf ∧
     (bufferAfterRead [1, 2, 3]).len ≤ (bufferAfterRead [1, 2, 3]).cap ∧
     (bufferAfterRead [1, 2, 3]).as_ref = [1, 2, 3]) :=
  ⟨by decide, c3_buffer_invariant [1, 2, 3] (by decide)⟩

/-- C4: a reactor iteration returns fatally exactly when the device
read failed; TCP and UDP egress write failures are logged and the
loop continues, and the keep-alive abort is not an error return. -/
theorem c4_fatal_only_on_device_read_failure (bc : IpAddr)
    (frame : List Nat) (o : FrameOracle) (ev : ReactorEvent)
    (e : IoError) (pkt : List Nat) :
    (reactorStep bc frame o ev).isFatal = ev.isDeviceReadFailure ∧
    reactorStep bc frame o (.deviceRead (.error e)) = .fatal e ∧
    reactorStep bc frame o (.tcpEgress pkt (.error e)) =
      .next [.logWriteError e] ∧
    reactorStep bc frame o (.udpEgress pkt (.error e)) =
      .next [.logWriteError e] ∧
    (reactorStep bc frame o (.keepAlive none)).isFatal = false := by
  refine ⟨?_, rfl, rfl, rfl, rfl⟩
  cases ev with
  | deviceRead res => cases res <;> rfl
  | tcpEgress p r => cases r <;> rfl
  | udpEgress p r => cases r <;> rfl
  | cleanupTick => rfl
  | keepAlive peer => cases peer <;> rfl

/-- C5: on a unicast TCP frame, a failing TCP header parse drops the
frame with an error log and calls neither `TcpTun` operation; a
successful parse calls `TcpTun::handle_packet` with the source and
destination socket addresses and the segment, and afterwards
`TcpTun::drive_interface_state` with the whole original frame. -/
theorem c5_tcp_dispatch (bc : IpAddr) (frame : List Nat) (o : FrameOracle)
    (packet : ParsedIp)
    (hp : o.ipParse = .ok (some packet))
    (hsrc : nonUnicast bc packet.src = false)
    (hdst : nonUnicast bc packet.dst = false)
    (hproto : packet.protocol = .tcp) :
    (∀ e, o.tcpParse = .error e →
      handle_tun_frame bc frame o = ([.errTcpParse e], none) ∧
      (handle_tun_frame bc frame o).1.filter TunEvent.isCall = []) ∧
    (∀ seg, o.tcpParse = .ok seg →
      ∃ mid, (handle_tun_frame bc frame o).1 =
          TunEvent.callTcpHandlePacket (packet.src, seg.srcPort)
            (packet.dst, seg.dstPort) seg :: mid ++
            [TunEvent.callTcpDriveInterfaceState frame] ∧
        mid.filter TunEvent.isCall = [] ∧
        (handle_tun_frame bc frame o).2 = none) := by
  constructor
  · intro e he
    constructor <;>
      simp [handle_tun_frame, hp, hsrc, hdst, hproto, he, TunEvent.isCall]
  · intro seg hs
    cases hres : o.tcpHandleRes with
    | error e2 =>
      refine ⟨[TunEvent.errTcpHandle e2], ?_, ?_, ?_⟩ <;>
        simp [handle_tun_frame, hp, hsrc, hdst, hproto, hs, hres,
          TunEvent.isCall]
    | ok u =>
      refine ⟨[], ?_, ?_, ?_⟩ <;>
        simp [handle_tun_frame, hp, hsrc, hdst, hproto, hs, hres,
          TunEvent.isCall]

def c5w_packet : ParsedIp :=
  ⟨.v4 10 0 0 50, .v4 93 184 216 34, .tcp, [1, 2, 3]⟩

def c5w_oracle : FrameOracle :=
  ⟨.ok (some c5w_packet), .error "truncated", .error "e", .ok (), .ok ()⟩

/-- C5 witness: a unicast TCP frame whose TCP header parse fails with
"truncated" is dropped with only the parse-error log. -/
theorem c5_tcp_dispatch_witness :
    handle_tun_frame (.v4 10 0 0 255) [4] c5w_oracle =
      ([.errTcpParse "truncated"], none) ∧
    (handle_tun_frame (.v4 10 0 0 255) [4] c5w_oracle).1.filter
      TunEvent.isCall = [] :=
  (c5_tcp_dispatch (.v4 10 0 0 255) [4] c5w_oracle c5w_packet rfl
    (by decide) (by decide) rfl).1 "truncated" rfl

/-- C6: after successful device creation with a ready channel
supplied, `TunInbound::run` sends the literal string "tun" exactly
once, before the reactor loop starts; when device creation fails the
run returns the error immediately and nothing is sent. -/
theorem c6_ready_sent_once (dev : DeviceModel) (e : IoError) (e2 : String)
    (ch ch2 : Option Unit) :
    (∃ mid, TunInbound_run (.ok dev) (some ()) =
        .ok (RunEffect.sendReady "tun" :: mid ++
          [RunEffect.enterReactorLoop]) ∧
      mid.filter RunEffect.isSendReady = [] ∧
      (RunEffect.sendReady "tun" :: mid ++
        [RunEffect.enterReactorLoop]).filter RunEffect.isSendReady =
        [RunEffect.sendReady "tun"]) ∧
    TunInbound_run (.ioFailure e) ch = .error (.io e) ∧
    TunInbound_run (.otherFailure e2) ch2 = .error (.wrappedOther e2) := by
  refine ⟨⟨[RunEffect.constructTcp (dev.mtu.getD 1500),
    RunEffect.constructUdp], rfl, rfl, rfl⟩, rfl, rfl⟩

/-- C7: a closed keep-alive channel makes the reactor abort with the
exact message of the `expect` call, not return an error. -/
theorem c7_keepalive_closed_aborts (bc : IpAddr) (frame : List Nat)
    (o : FrameOracle) :
    reactorStep bc frame o (.keepAlive none) =
      .panicked "UDP keep-alive channel closed unexpectly" ∧
    (reactorStep bc frame o (.keepAlive none)).isFatal = false :=
  ⟨rfl, rfl⟩

/-- C8: `TunInbound::new` returns the input-validation error when the
address does not parse as CIDR or the destination does not parse as
an IP address, and constructs the inbound only when both parse;
`TunInbound::run` returns the inner I/O error on an I/O device
creation failure and a wrapped other-error on any other device
creation failure. -/
theorem c8_construction_errors (address destination : String)
    (a : IpNetAddr) (d : IpAddr) (pd : Option IpAddr) (e : IoError)
    (e2 : String) (ch ch2 : Option Unit) :
    TunInbound_new address destination none pd =
      .invalidInput ("invalid tun address of " ++ address) ∧
    TunInbound_new address destination (some a) none =
      .invalidInput ("invalid tun destination of " ++ destination) ∧
    TunInbound_new address destination (some a) (some d) = .ok ⟨a, d⟩ ∧
    TunInbound_run (.ioFailure e) ch = .error (.io e) ∧
    TunInbound_run (.otherFailure e2) ch2 = .error (.wrappedOther e2) :=
  ⟨rfl, rfl, rfl, rfl, rfl⟩

/-- C9: `TcpTun` is constructed with the device-reported MTU when one
is reported and with 1500 when not, by exactly one construction
effect placed before the reactor loop starts. -/
theorem c9_mtu_configured_once (m : Nat) (ch ch2 : Option Unit) :
    (∃ pre, TunInbound_run (.ok ⟨some m⟩) ch =
        .ok (pre ++ [RunEffect.constructTcp m, RunEffect.constructUdp,
          RunEffect.enterReactorLoop]) ∧
      pre.filter RunEffect.isConstructTcp = [] ∧
      (pre ++ [RunEffect.constructTcp m, RunEffect.constructUdp,
        RunEffect.enterReactorLoop]).filter RunEffect.isConstructTcp =
        [RunEffect.constructTcp m]) ∧
    (∃ pre, TunInbound_run (.ok ⟨none⟩) ch2 =
        .ok (pre ++ [RunEffect.constructTcp 1500, RunEffect.constructUdp,
          RunEffect.enterReactorLoop]) ∧
      pre.filter RunEffect.isConstructTcp = [] ∧
      (pre ++ [RunEffect.constructTcp 1500, RunEffect.constructUdp,
        RunEffect.enterReactorLoop]).filter RunEffect.isConstructTcp =
        [RunEffect.constructTcp 1500]) := by
  constructor
  · cases ch with
    | none => exact ⟨[], rfl, rfl, rfl⟩
    | some u => exact ⟨[RunEffect.sendReady "tun"], rfl, rfl, rfl⟩
  · cases ch2 with
    | none => exact ⟨[], rfl, rfl, rfl⟩
    | some u => exact ⟨[RunEffect.sendReady "tun"], rfl, rfl, rfl⟩

/-- C10: on a unicast TCP frame whose TCP header parses, a failing
`TcpTun::handle_packet` is logged but `drive_interface_state` is
still invoked afterwards with the whole original frame. -/
theorem c10_drive_called_on_handle_error (bc : IpAddr) (frame : List Nat)
    (o : FrameOracle) (packet : ParsedIp) (seg : TcpSeg) (e : String)
    (hp : o.ipParse = .ok (some packet))
    (hsrc : nonUnicast bc packet.src = false)
    (hdst : nonUnicast bc packet.dst = false)
    (hproto : packet.protocol = .tcp)
    (hseg : o.tcpParse = .ok seg)
    (herr : o.tcpHandleRes = .error e) :
    (handle_tun_frame bc frame o).1 =
      [TunEvent.callTcpHandlePacket (packet.src, seg.srcPort)
        (packet.dst, seg.dstPort) seg,
       TunEvent.errTcpHandle e,
       TunEvent.callTcpDriveInterfaceState frame] ∧
    TunEvent.callTcpDriveInterfaceState frame ∈
      (handle_tun_frame bc frame o).1 := by
  constructor <;>
    simp [handle_tun_frame, hp, hsrc, hdst, hproto, hseg, herr]

def c10w_seg : TcpSeg := ⟨50000, 443, [2, 0, 0]⟩

def c10w_oracle : FrameOracle :=
  ⟨.ok (some c5w_packet), .ok c10w_seg, .error "e", .error "boom", .ok ()⟩

/-- C10 witness: with `handle_packet` failing with "boom",
`drive_interface_state` is still called with the whole frame. -/
theorem c10_drive_called_on_handle_error_witness :
    (handle_tun_frame (.v4 10 0 0 255) [4, 5] c10w_oracle).1 =
      [TunEvent.callTcpHandlePacket (c5w_packet.src, c10w_seg.srcPort)
        (c5w_packet.dst, c10w_seg.dstPort) c10w_seg,
       TunEvent.errTcpHandle "boom",
       TunEvent.callTcpDriveInterfaceState [4, 5]] ∧
    TunEvent.callTcpDriveInterfaceState [4, 5] ∈
      (handle_tun_frame (.v4 10 0 0 255) [4, 5] c10w_oracle).1 :=
  c10_drive_called_on_handle_error (.v4 10 0 0 255) [4, 5] c10w_oracle
    c5w_packet c10w_seg "boom" rfl (by decide) (by decide) rfl rfl rfl

end Jets.Tun
